import Mathlib

/-!
Verification of the forms-filler program (src/main.py).

Python strings are modelled as `List Char` (a Python `str` is a sequence of
code points).  The string helpers below reproduce the Python operations the
source uses: `sub in s`, `s.split(sep)`, `s.strip()`, `s.split()`, `int(s)`,
`s.lower()` and `" ".join(parts)`.  Unicode-only behaviours (non-ASCII digits
and case mappings) are out of scope: every string the program manipulates is
ASCII.
-/

namespace FormsFiller

/-- Python `sub in s` (substring containment). -/
def pyContains (sub : List Char) : List Char → Bool
  | [] => sub.isEmpty
  | c :: rest => sub.isPrefixOf (c :: rest) || pyContains sub rest

/-- Fuel-driven worker for `pySplit`.  The fuel starts at the length of the
string and each step consumes at least one character (the separator is
nonempty), so the `0, s, acc` fallback is unreachable in actual use. -/
def pySplitAux (sep : List Char) : Nat → List Char → List Char → List (List Char)
  | _, [], acc => [acc.reverse]
  | 0, s, acc => [acc.reverse ++ s]
  | fuel + 1, c :: rest, acc =>
    if sep.isPrefixOf (c :: rest) then
      acc.reverse :: pySplitAux sep fuel (List.drop sep.length (c :: rest)) []
    else
      pySplitAux sep fuel rest (c :: acc)

/-- Python `s.split(sep)` for a nonempty separator: split on non-overlapping
leftmost occurrences of `sep`.  (Python raises on an empty separator; the
program only ever splits on the literal `"select top"`.) -/
def pySplit (sep s : List Char) : List (List Char) :=
  if sep.isEmpty then [s] else pySplitAux sep s.length s []

/-- Python `s.strip()`: remove leading and trailing whitespace. -/
def pyStrip (s : List Char) : List Char :=
  ((s.dropWhile Char.isWhitespace).reverse.dropWhile Char.isWhitespace).reverse

/-- Worker for `pySplitWs`, accumulating the current word reversed. -/
def pySplitWsAux : List Char → List Char → List (List Char)
  | [], [] => []
  | [], acc => [acc.reverse]
  | c :: rest, acc =>
    if c.isWhitespace then
      match acc with
      | [] => pySplitWsAux rest []
      | _ => acc.reverse :: pySplitWsAux rest []
    else pySplitWsAux rest (c :: acc)

/-- Python `s.split()` (no argument): split on whitespace runs, dropping
empty pieces. -/
def pySplitWs (s : List Char) : List (List Char) :=
  pySplitWsAux s []

/-- Continuation of `digitPart` after the first digit: Python's `digitpart`
grammar `digit (["_"] digit)*` — single underscores allowed between digits. -/
def digitPartAux : Nat → List Char → Option Nat
  | acc, [] => some acc
  | _, ['_'] => none
  | acc, '_' :: c :: rest =>
    if c.isDigit then digitPartAux (acc * 10 + (c.toNat - 48)) rest else none
  | acc, c :: rest =>
    if c.isDigit then digitPartAux (acc * 10 + (c.toNat - 48)) rest else none

/-- Python's `digitpart`: a nonempty digit sequence, underscores only between
digits. -/
def digitPart : List Char → Option Nat
  | [] => none
  | c :: rest => if c.isDigit then digitPartAux (c.toNat - 48) rest else none

/-- Python `int(s)`: optional surrounding whitespace, optional sign, then a
digit part (ASCII digits). -/
def pyInt (s : List Char) : Option Int :=
  match pyStrip s with
  | '+' :: rest => (digitPart rest).map (fun n => (n : Int))
  | '-' :: rest => (digitPart rest).map (fun n => -(n : Int))
  | t => (digitPart t).map (fun n => (n : Int))

/-- Python `s.lower()` (ASCII case mapping). -/
def pyLower (s : List Char) : List Char :=
  s.map Char.toLower

/-- Python `sep.join(parts)`. -/
def pyJoin (sep : List Char) : List (List Char) → List Char
  | [] => []
  | [x] => x
  | x :: xs => x ++ sep ++ pyJoin sep xs

/-!
## Data model

`PyErr` stands for a Python exception value.  `Elem` is a DOM element handle
(a radio option or checkbox) with its `data-value` attribute; `Container` is
the snapshot of one `div[role='listitem']` question container; `Rng` is an
oracle supplying the outcomes of the `random` module calls, so that every
theorem quantifies over all possible randomness.
-/

/-- A Python exception.  `valueError` is what `random.sample` raises on a
negative or oversized sample size; `exn` stands for any other exception. -/
inductive PyErr where
  | valueError
  | exn (code : Nat)
deriving DecidableEq

instance {ε α : Type} [DecidableEq ε] [DecidableEq α] :
    DecidableEq (Except ε α) := fun a b =>
  match a, b with
  | .ok x, .ok y =>
    if h : x = y then isTrue (by simp [h]) else isFalse (by simp [h])
  | .error x, .error y =>
    if h : x = y then isTrue (by simp [h]) else isFalse (by simp [h])
  | .ok _, .error _ => isFalse (by simp)
  | .error _, .ok _ => isFalse (by simp)

/-- A selectable DOM element (radio option / checkbox): its identity and its
`data-value` attribute (`none` when the attribute is absent). -/
structure Elem where
  id : Nat
  dataValue : Option (List Char)
deriving DecidableEq

instance : Inhabited Elem := ⟨⟨0, none⟩⟩

/-- `OTHER_OPTION_VALUE = "__other_option__"`: the sentinel marking the
"other / write-in" option. -/
def OTHER_OPTION_VALUE : List Char := "__other_option__".toList

/-- `opt.get_attribute("data-value") == OTHER_OPTION_VALUE`. -/
def isSentinel (e : Elem) : Bool :=
  decide (e.dataValue = some OTHER_OPTION_VALUE)

/-- Snapshot of one question container.  `heading` is the raw
`inner_text()` of the heading locator (`none` when `count() == 0`);
`actionOutcome` is the outcome of the UI actions (scroll/click/fill)
performed on the container's elements — `.error` models those actions
raising an exception. -/
structure Container where
  radioGroupCount : Nat
  radioOptions : List Elem
  checkboxes : List Elem
  inputCount : Nat
  heading : Option (List Char)
  actionOutcome : Except PyErr Unit

/-- Oracle for the outcomes of the `random` module calls made during one
container fill. -/
structure Rng where
  radioPick : Nat
  defaultCount : Nat
  samplePick : Nat → Nat
  emailLetter : Nat → Nat
  domainPick : Nat
  firstPick : Nat
  lastPick : Nat
  wordCount : Nat
  wordPick : Nat → Nat

/-!
## Randomness primitives

`random.choice` is modelled by indexing with an oracle value modulo the list
length; `random.sample(pop, k)` draws `k` elements without replacement by
repeatedly removing an oracle-chosen index from the remaining population,
and raises `ValueError` unless `0 ≤ k ≤ len(pop)`.  `random.randint(a, b)`
is modelled as `a + oracle % (b - a + 1)`.
-/

/-- `random.choice(l)` for a nonempty list: an arbitrary element, selected by
the oracle value `r`. -/
def pyChoice (l : List Elem) (r : Nat) : Elem :=
  l.getD (r % l.length) default

/-- Draw `k` elements without replacement: each step removes the
oracle-chosen index from the remaining population. -/
def drawWithoutReplacement (pick : Nat → Nat) : Nat → List α → List α
  | 0, _ => []
  | _ + 1, [] => []
  | k + 1, a :: l =>
    let j := pick 0 % (a :: l).length
    (a :: l).getD j a ::
      drawWithoutReplacement (fun i => pick (i + 1)) k ((a :: l).eraseIdx j)

/-- `random.sample(pop, k)`: raises `ValueError` when `k < 0` or
`k > len(pop)`, otherwise draws `k` distinct elements. -/
def pySample (pop : List α) (k : Int) (pick : Nat → Nat) : Except PyErr (List α) :=
  if k < 0 ∨ (pop.length : Int) < k then .error .valueError
  else .ok (drawWithoutReplacement pick k.toNat pop)

/-!
## Answer generators (`_generate_email`, `_generate_name`, `_generate_text`)
-/

/-- The 26 ASCII lowercase letters (`string.ascii_lowercase`). -/
def asciiLowercase : List Char := "abcdefghijklmnopqrstuvwxyz".toList

/-- `domains = ["example.com", "test.com", "sample.net", "demo.org"]`. -/
def emailDomains : List (List Char) :=
  ["example.com", "test.com", "sample.net", "demo.org"].map String.toList

/-- The fixed first-name list of `_generate_name`. -/
def firstNames : List (List Char) :=
  ["John", "Mary", "James", "Patricia", "Michael", "Jennifer", "William",
    "Linda", "David", "Elizabeth"].map String.toList

/-- The fixed last-name list of `_generate_name`. -/
def lastNames : List (List Char) :=
  ["Smith", "Johnson", "Williams", "Jones", "Brown", "Davis", "Miller",
    "Wilson", "Moore", "Taylor"].map String.toList

/-- The fixed vocabulary of `_generate_text`. -/
def reviewWords : List (List Char) :=
  ["great", "excellent", "good", "best", "better", "awesome", "nice",
    "perfect", "wonderful", "amazing"].map String.toList

/-- `_generate_email`: 8 random lowercase letters, `@`, a random domain. -/
def generate_email (rng : Rng) : List Char :=
  ((List.range 8).map fun i =>
      asciiLowercase.getD (rng.emailLetter i % asciiLowercase.length) 'a') ++
    '@' :: emailDomains.getD (rng.domainPick % emailDomains.length) []

/-- `_generate_name`: `f"{random.choice(first_names)} {random.choice(last_names)}"`. -/
def generate_name (rng : Rng) : List Char :=
  firstNames.getD (rng.firstPick % firstNames.length) [] ++
    ' ' :: lastNames.getD (rng.lastPick % lastNames.length) []

/-- `_generate_text`: `" ".join(random.sample(words, random.randint(3, 6)))`. -/
def generate_text (rng : Rng) : List Char :=
  pyJoin [' ']
    (drawWithoutReplacement rng.wordPick (3 + rng.wordCount % 4) reviewWords)

/-!
## Fill operations
-/

/-- The lowercased heading text used by `_fill_checkbox_group` and
`_fill_text_input`: `inner_text().lower()` when the heading locator matches,
`""` otherwise. -/
def questionText (c : Container) : List Char :=
  match c.heading with
  | some t => pyLower t
  | none => []

/-- The literal pattern `"select top"`. -/
def selectTopPattern : List Char := "select top".toList

/-- The heading parse of `_fill_checkbox_group`: result is
`(selection_limit, warned)`.  `selection_limit` stays `None` and a warning is
logged when the token after `"select top"` is missing (`IndexError`) or is
not an integer (`ValueError`); when the pattern is absent no warning is
logged. -/
def parseLimit (q : List Char) : Option Int × Bool :=
  if pyContains selectTopPattern q then
    match (pySplit selectTopPattern q).get? 1 with
    | none => (none, true)
    | some part =>
      match (pySplitWs (pyStrip part)).head? with
      | none => (none, true)
      | some tok =>
        match pyInt tok with
        | none => (none, true)
        | some n => (some n, false)
  else (none, false)

/-- `filtered or all`: the non-sentinel elements, or the whole list when
every element is the sentinel (Python's `filtered_options or options`). -/
def nonSentinelOr (l : List Elem) : List Elem :=
  if (l.filter fun e => !isSentinel e).isEmpty then l
  else l.filter fun e => !isSentinel e

/-- `random.randint(1, min(3, len(eligible)))`: the default selection count
when no explicit limit applies. -/
def defaultSelectCount (rng : Rng) (eligibleLen : Nat) : Nat :=
  1 + rng.defaultCount % min 3 eligibleLen

/-- `num_to_select`: `min(selection_limit, len(eligible))` when
`selection_limit` is truthy (set and nonzero), the random default
otherwise. -/
def numToSelect (limit : Option Int) (rng : Rng) (eligibleLen : Nat) : Int :=
  match limit with
  | some n => if n = 0 then (defaultSelectCount rng eligibleLen : Int)
              else min n (eligibleLen : Int)
  | none => (defaultSelectCount rng eligibleLen : Int)

/-- `_fill_radio_group`: no-op on an empty option list, else click one
random non-sentinel option (falling back to all options when every option
is the sentinel).  Returns the clicked option. -/
def fill_radio_group (c : Container) (rng : Rng) : Except PyErr (Option Elem) :=
  if c.radioOptions.isEmpty then .ok none
  else
    match c.actionOutcome with
    | .error e => .error e
    | .ok _ => .ok (some (pyChoice (nonSentinelOr c.radioOptions) rng.radioPick))

/-- `_fill_checkbox_group`: parse the heading for `"select top <int>"`, then
sample `num_to_select` distinct eligible checkboxes and click them.
Returns the clicked checkboxes and whether the parse warning was logged. -/
def fill_checkbox_group (c : Container) (rng : Rng) :
    Except PyErr (List Elem × Bool) :=
  if c.checkboxes.isEmpty then .ok ([], (parseLimit (questionText c)).2)
  else
    match pySample (nonSentinelOr c.checkboxes)
        (numToSelect (parseLimit (questionText c)).1 rng
          (nonSentinelOr c.checkboxes).length)
        rng.samplePick with
    | .error e => .error e
    | .ok sel =>
      match c.actionOutcome with
      | .error e => .error e
      | .ok _ => .ok (sel, (parseLimit (questionText c)).2)

/-- The literal substring `"email"`. -/
def emailKey : List Char := "email".toList

/-- The literal substring `"name"`. -/
def nameKey : List Char := "name".toList

/-- `_fill_text_input`: no-op when the container has no `input`; otherwise
fill it with an email, a name, or a random phrase, chosen by
heading-substring priority.  Returns the filled value. -/
def fill_text_input (c : Container) (rng : Rng) :
    Except PyErr (Option (List Char)) :=
  if c.inputCount = 0 then .ok none
  else
    match c.actionOutcome with
    | .error e => .error e
    | .ok _ =>
      .ok (some
        (if pyContains emailKey (questionText c) then generate_email rng
         else if pyContains nameKey (questionText c) then generate_name rng
         else generate_text rng))

/-!
## Classification and the session (`_process_question_container`,
`fill_form`, `run_submission`, `cleanup`, `submission_worker`)
-/

/-- The four question shapes. -/
inductive Variant where
  | SingleChoice
  | MultiChoice
  | FreeText
  | Unknown
deriving DecidableEq

/-- The first-match classification of `_process_question_container`:
radio group, else checkbox, else text input, else unknown. -/
def classify (c : Container) : Variant :=
  if 0 < c.radioGroupCount then .SingleChoice
  else if 0 < c.checkboxes.length then .MultiChoice
  else if 0 < c.inputCount then .FreeText
  else .Unknown

/-- `_process_question_container`: dispatch on the classification; the
`Unknown` branch only logs a warning.  Returns the variant and whether the
unknown-type warning was logged. -/
def process_question_container (c : Container) (rng : Rng) :
    Except PyErr (Variant × Bool) :=
  match classify c with
  | .SingleChoice => (fill_radio_group c rng).map fun _ => (.SingleChoice, false)
  | .MultiChoice => (fill_checkbox_group c rng).map fun _ => (.MultiChoice, false)
  | .FreeText => (fill_text_input c rng).map fun _ => (.FreeText, false)
  | .Unknown => .ok (.Unknown, true)

/-- The environment of one `fill_form` run: outcomes of the external
browser-automation steps plus the page's question containers. -/
structure Env where
  navResult : Except PyErr Unit
  containers : List Container
  rng : Rng
  submitCount : Nat
  clickResult : Except PyErr Unit
  waitResult : Except PyErr Unit

/-- The question loop of `fill_form`: process each container in document
order; the first uncaught exception aborts the loop. -/
def processAll (rng : Rng) : List Container → Except PyErr Unit
  | [] => .ok ()
  | c :: cs =>
    match process_question_container c rng with
    | .error e => .error e
    | .ok _ => processAll rng cs

/-- The body of `fill_form`'s `try` block: navigate, fill every question,
locate and click the submit button, wait for the confirmation URL.
`.error` means an exception reached the session boundary. -/
def fill_form_body (env : Env) : Except PyErr Bool :=
  match env.navResult with
  | .error e => .error e
  | .ok _ =>
    match processAll env.rng env.containers with
    | .error e => .error e
    | .ok _ =>
      if env.submitCount = 0 then .ok false
      else
        match env.clickResult with
        | .error e => .error e
        | .ok _ =>
          match env.waitResult with
          | .error e => .error e
          | .ok _ => .ok true

/-- `fill_form`: the `try` body with the session-boundary
`except Exception` that converts any exception into `False`. -/
def fill_form (env : Env) : Bool :=
  match fill_form_body env with
  | .ok b => b
  | .error _ => false

/-- One invocation of `cleanup`: its body's outcome (any exception it raises
is caught inside `cleanup` itself) is appended to the release trace. -/
def cleanup_release (body : Except PyErr Unit) (trace : List (Except PyErr Unit)) :
    List (Except PyErr Unit) :=
  trace ++ [body]

/-- `run_submission`: `fill_form` then `self.cleanup()`; returns the boolean
outcome together with the releases it performed. -/
def run_submission (e : Env) (cleanupBody : Except PyErr Unit) :
    Bool × List (Except PyErr Unit) :=
  (fill_form e, cleanup_release cleanupBody [])

/-- The environment of one `submission_worker` call: the constructor
outcome (`FormFiller(...)` launches the browser and can raise), the session
environment, and the outcomes of the (up to two) cleanup-body executions. -/
structure WorkerEnv where
  ctorResult : Except PyErr Unit
  env : Env
  cleanup1 : Except PyErr Unit
  cleanup2 : Except PyErr Unit

/-- `submission_worker`: construct a `FormFiller` and run one submission,
catching any exception (`return False`); the `finally` block calls
`cleanup()` again whenever construction succeeded.  Returns the worker's
result — `.error` would mean an exception escaped into the orchestrator —
and the trace of cleanup-body executions (the releases). -/
def submission_worker (w : WorkerEnv) :
    Except PyErr Bool × List (Except PyErr Unit) :=
  match w.ctorResult with
  | .error _ => (.ok false, [])
  | .ok _ =>
    let r := run_submission w.env w.cleanup1
    (.ok r.1, cleanup_release w.cleanup2 r.2)

/-!
## Orchestrator (`run_threaded_submissions`)
-/

/-- Aggregate batch counters. -/
structure BatchSummary where
  attempted : Nat
  succeeded : Nat
  failed : Nat
deriving DecidableEq

/-- One step of the result-collection loop: `future.result()` returning
`True` increments `succeeded`; returning `False` or raising increments
`failed`. -/
def tallyStep (acc : Nat × Nat) (o : Except PyErr Bool) : Nat × Nat :=
  match o with
  | .ok true => (acc.1 + 1, acc.2)
  | .ok false => (acc.1, acc.2 + 1)
  | .error _ => (acc.1, acc.2 + 1)

/-- Did collecting this future yield `True`? -/
def isSuccess (o : Except PyErr Bool) : Bool :=
  match o with
  | .ok true => true
  | _ => false

/-- `run_threaded_submissions`: `submissionCount` futures are dispatched and
their collected outcomes (in completion order) are tallied into the batch
counters. -/
def run_threaded_submissions (submissionCount : Nat)
    (outcomes : List (Except PyErr Bool)) : BatchSummary :=
  { attempted := submissionCount
    succeeded := (outcomes.foldl tallyStep (0, 0)).1
    failed := (outcomes.foldl tallyStep (0, 0)).2 }

/-- Did this computation end in an exception? -/
def isErr : Except PyErr α → Bool
  | .error _ => true
  | .ok _ => false

/-!
## Concrete instances used by witnesses and counterexamples
-/

/-- A fixed randomness oracle (every random call answers 0). -/
def rngZero : Rng :=
  { radioPick := 0, defaultCount := 0, samplePick := fun _ => 0,
    emailLetter := fun _ => 0, domainPick := 0, firstPick := 0, lastPick := 0,
    wordCount := 0, wordPick := fun _ => 0 }

/-- A checkbox/radio element without a `data-value` attribute. -/
def plainBox (n : Nat) : Elem := { id := n, dataValue := none }

/-- An element flagged with the sentinel `data-value`. -/
def sentinelBox (n : Nat) : Elem :=
  { id := n, dataValue := some OTHER_OPTION_VALUE }

/-- A MultiChoice container with the given heading and checkboxes. -/
def checkboxContainer (h : String) (boxes : List Elem) : Container :=
  { radioGroupCount := 0, radioOptions := [], checkboxes := boxes,
    inputCount := 0, heading := some h.toList, actionOutcome := .ok () }

/-- A SingleChoice container with the given radio options. -/
def radioContainer (opts : List Elem) : Container :=
  { radioGroupCount := 1, radioOptions := opts, checkboxes := [],
    inputCount := 0, heading := none, actionOutcome := .ok () }

/-- A FreeText container with the given heading. -/
def textContainer (h : String) : Container :=
  { radioGroupCount := 0, radioOptions := [], checkboxes := [],
    inputCount := 1, heading := some h.toList, actionOutcome := .ok () }

/-- A container matching none of the three shapes. -/
def emptyContainer : Container :=
  { radioGroupCount := 0, radioOptions := [], checkboxes := [],
    inputCount := 0, heading := none, actionOutcome := .ok () }

/-- A MultiChoice container whose heading parses to `-1`. -/
def negLimitContainer : Container :=
  checkboxContainer "select top -1" [plainBox 1]

/-- A session environment whose only question is `negLimitContainer` and
whose browser steps all succeed. -/
def negLimitEnv : Env :=
  { navResult := .ok (), containers := [negLimitContainer], rng := rngZero,
    submitCount := 1, clickResult := .ok (), waitResult := .ok () }

/-- A session environment with no questions and all browser steps
succeeding. -/
def demoEnv : Env :=
  { navResult := .ok (), containers := [], rng := rngZero, submitCount := 1,
    clickResult := .ok (), waitResult := .ok () }

/-- A worker environment whose construction and session both succeed. -/
def demoWorker : WorkerEnv :=
  { ctorResult := .ok (), env := demoEnv, cleanup1 := .ok (),
    cleanup2 := .ok () }

/-- A list of collected future outcomes: one success, one failure, one
collection exception. -/
def demoOutcomes : List (Except PyErr Bool) :=
  [.ok true, .ok false, .error (.exn 0)]

/-!
## Helper lemmas
-/

theorem draw_length (pick : Nat → Nat) (k : Nat) (pop : List α) :
    (drawWithoutReplacement pick k pop).length = min k pop.length := by
  induction k generalizing pick pop with
  | zero => simp [drawWithoutReplacement]
  | succ k ih =>
    cases pop with
    | nil => simp [drawWithoutReplacement]
    | cons a l =>
      have hj : pick 0 % (a :: l).length < (a :: l).length :=
        Nat.mod_lt _ (by simp)
      simp only [drawWithoutReplacement, List.length_cons, ih]
      rw [List.length_eraseIdx_of_lt (by simpa using hj)]
      simp [Nat.succ_min_succ]

theorem draw_mem (pick : Nat → Nat) (k : Nat) (pop : List α)
    (x : α) (hx : x ∈ drawWithoutReplacement pick k pop) : x ∈ pop := by
  induction k generalizing pick pop with
  | zero => simp [drawWithoutReplacement] at hx
  | succ k ih =>
    cases pop with
    | nil => simp [drawWithoutReplacement] at hx
    | cons a l =>
      have hj : pick 0 % (a :: l).length < (a :: l).length :=
        Nat.mod_lt _ (by simp)
      simp only [drawWithoutReplacement, List.mem_cons] at hx
      rcases hx with h | h
      · rw [h, List.getD_eq_getElem _ _ hj]
        exact List.getElem_mem hj
      · exact List.eraseIdx_subset _ _ (ih _ _ h)

theorem draw_nodup (pick : Nat → Nat) (k : Nat) (pop : List α)
    (h : pop.Nodup) : (drawWithoutReplacement pick k pop).Nodup := by
  induction k generalizing pick pop with
  | zero => simp [drawWithoutReplacement]
  | succ k ih =>
    cases pop with
    | nil => simp [drawWithoutReplacement]
    | cons a l =>
      have hj : pick 0 % (a :: l).length < (a :: l).length :=
        Nat.mod_lt _ (by simp)
      simp only [drawWithoutReplacement]
      refine List.nodup_cons.mpr ⟨?_, ih _ _ (h.eraseIdx _)⟩
      intro hmem
      have hmem' := draw_mem _ _ _ _ hmem
      rw [List.getD_eq_getElem _ _ hj, List.mem_eraseIdx_iff_getElem] at hmem'
      obtain ⟨i, hi, hne, heq⟩ := hmem'
      exact hne ((h.getElem_inj_iff).mp heq)

theorem pySample_ok (pop : List α) (k : Int) (pick : Nat → Nat)
    (h0 : 0 ≤ k) (hk : k ≤ (pop.length : Int)) :
    pySample pop k pick = .ok (drawWithoutReplacement pick k.toNat pop) := by
  have h : ¬(k < 0 ∨ (pop.length : Int) < k) := by omega
  simp [pySample, h]

theorem pyChoice_mem (l : List Elem) (r : Nat) (h : l ≠ []) :
    pyChoice l r ∈ l := by
  have hl : 0 < l.length := List.length_pos.mpr h
  have hj : r % l.length < l.length := Nat.mod_lt _ hl
  rw [pyChoice, List.getD_eq_getElem _ _ hj]
  exact List.getElem_mem hj

theorem nonSentinelOr_ne_nil (l : List Elem) (h : l ≠ []) :
    nonSentinelOr l ≠ [] := by
  rw [nonSentinelOr]
  split
  · exact h
  · next hne => simpa using hne

theorem nonSentinelOr_nodup (l : List Elem) (h : l.Nodup) :
    (nonSentinelOr l).Nodup := by
  rw [nonSentinelOr]
  split
  · exact h
  · exact h.filter _

theorem nonSentinelOr_not_sentinel (l : List Elem)
    (h : ∃ e ∈ l, isSentinel e = false) :
    ∀ x ∈ nonSentinelOr l, isSentinel x = false := by
  intro x hx
  rw [nonSentinelOr] at hx
  obtain ⟨e, he, hes⟩ := h
  split at hx
  · next hemp =>
    exfalso
    rw [List.isEmpty_iff] at hemp
    have : e ∈ l.filter fun e => !isSentinel e :=
      List.mem_filter.mpr ⟨he, by simp [hes]⟩
    simp [hemp] at this
  · simpa using (List.mem_filter.mp hx).2

theorem nonSentinelOr_all_sentinel (l : List Elem)
    (h : ∀ e ∈ l, isSentinel e = true) : nonSentinelOr l = l := by
  rw [nonSentinelOr]
  split
  · rfl
  · next hne =>
    exfalso
    apply hne
    rw [List.isEmpty_iff, List.filter_eq_nil_iff]
    intro e he
    simp [h e he]

theorem nonSentinelOr_subset (l : List Elem) :
    ∀ x ∈ nonSentinelOr l, x ∈ l := by
  intro x hx
  rw [nonSentinelOr] at hx
  split at hx
  · exact hx
  · exact (List.mem_filter.mp hx).1

theorem defaultSelectCount_bounds (rng : Rng) (n : Nat) (h : 0 < n) :
    1 ≤ defaultSelectCount rng n ∧ defaultSelectCount rng n ≤ min 3 n := by
  have hm : 0 < min 3 n := by omega
  have := Nat.mod_lt rng.defaultCount hm
  unfold defaultSelectCount
  omega

theorem parseLimit_warned (q : List Char) (h : (parseLimit q).1 = none) :
    (parseLimit q).2 = pyContains selectTopPattern q := by
  rw [parseLimit] at *
  split at h
  · next hc =>
    rw [hc]
    split at h
    · simp
    · split at h
      · simp
      · split at h
        · simp
        · simp at h
  · next hc => simp [Bool.eq_false_iff.mpr hc]

theorem tally_sum (os : List (Except PyErr Bool)) (s f : Nat) :
    (os.foldl tallyStep (s, f)).1 = s + os.countP (fun o => isSuccess o) ∧
    (os.foldl tallyStep (s, f)).2 = f + os.countP (fun o => !isSuccess o) := by
  induction os generalizing s f with
  | nil => simp
  | cons o os ih =>
    rcases o with e | b
    · have h := ih s (f + 1)
      simp only [List.foldl_cons, tallyStep, List.countP_cons, isSuccess] at h ⊢
      simp at h ⊢
      omega
    · cases b
      · have h := ih s (f + 1)
        simp only [List.foldl_cons, tallyStep, List.countP_cons, isSuccess] at h ⊢
        simp at h ⊢
        omega
      · have h := ih (s + 1) f
        simp only [List.foldl_cons, tallyStep, List.countP_cons, isSuccess] at h ⊢
        simp at h ⊢
        omega

theorem countP_not_add (os : List (Except PyErr Bool)) :
    os.countP (fun o => isSuccess o) + os.countP (fun o => !isSuccess o) =
      os.length := by
  induction os with
  | nil => rfl
  | cons o os ih =>
    by_cases h : isSuccess o <;> simp [List.countP_cons, h] <;> omega

theorem fill_checkbox_group_eq (c : Container) (rng : Rng)
    (hne : c.checkboxes ≠ []) (hact : c.actionOutcome = .ok ())
    (h0 : 0 ≤ numToSelect (parseLimit (questionText c)).1 rng
      (nonSentinelOr c.checkboxes).length)
    (hle : numToSelect (parseLimit (questionText c)).1 rng
      (nonSentinelOr c.checkboxes).length ≤
      ((nonSentinelOr c.checkboxes).length : Int)) :
    fill_checkbox_group c rng =
      .ok (drawWithoutReplacement rng.samplePick
          (numToSelect (parseLimit (questionText c)).1 rng
            (nonSentinelOr c.checkboxes).length).toNat
          (nonSentinelOr c.checkboxes),
        (parseLimit (questionText c)).2) := by
  rw [fill_checkbox_group, if_neg (by simpa using hne),
    pySample_ok _ _ _ h0 hle, hact]

theorem fill_checkbox_group_default (c : Container) (rng : Rng)
    (hnum : numToSelect (parseLimit (questionText c)).1 rng
        (nonSentinelOr c.checkboxes).length =
      (defaultSelectCount rng (nonSentinelOr c.checkboxes).length : Int))
    (hne : c.checkboxes ≠ []) (hact : c.actionOutcome = .ok ()) :
    ∃ sel : List Elem,
      fill_checkbox_group c rng = .ok (sel, (parseLimit (questionText c)).2) ∧
      sel.length = defaultSelectCount rng (nonSentinelOr c.checkboxes).length := by
  have hlen : 0 < (nonSentinelOr c.checkboxes).length :=
    List.length_pos.mpr (nonSentinelOr_ne_nil _ hne)
  have hb := defaultSelectCount_bounds rng (nonSentinelOr c.checkboxes).length hlen
  refine ⟨_, fill_checkbox_group_eq c rng hne hact (by omega) (by
    rw [hnum]; exact_mod_cast by omega), ?_⟩
  rw [draw_length, hnum]
  simp only [Int.toNat_natCast]
  omega

theorem numToSelect_some_pos (n : Int) (rng : Rng) (e : Nat) (h : n ≠ 0) :
    numToSelect (some n) rng e = min n (e : Int) := by
  simp [numToSelect, h]

theorem numToSelect_default (limit : Option Int) (rng : Rng) (e : Nat)
    (h : limit = none ∨ limit = some 0) :
    numToSelect limit rng e = (defaultSelectCount rng e : Int) := by
  rcases h with h | h <;> simp [numToSelect, h]

/-!
## Claims
-/

/-- C1: for every batch of `N` requested attempts (`N ≥ 0`), after all `N`
futures are collected the aggregate counters satisfy
`succeeded + failed = attempted = N`; an outcome whose collection raised an
exception counts as exactly one failure (succeeded counts exactly the `True`
results, failed counts everything else), and the tally is a total fold over
all remaining outcomes, so one exception aborts neither the siblings nor
the batch. -/
theorem batch_counters_invariant (n : Nat) (outcomes : List (Except PyErr Bool))
    (h : outcomes.length = n) :
    (run_threaded_submissions n outcomes).succeeded +
        (run_threaded_submissions n outcomes).failed =
      (run_threaded_submissions n outcomes).attempted ∧
    (run_threaded_submissions n outcomes).attempted = n ∧
    (run_threaded_submissions n outcomes).succeeded =
      outcomes.countP (fun o => isSuccess o) ∧
    (run_threaded_submissions n outcomes).failed =
      outcomes.countP (fun o => !isSuccess o) := by
  have t := tally_sum outcomes 0 0
  have hc := countP_not_add outcomes
  simp only [run_threaded_submissions] at *
  exact ⟨by omega, by trivial, by omega, by omega⟩

/-- Witness for C1: `N = 3` with one success, one failure and one
collection exception gives `succeeded = 1`, `failed = 2`,
`attempted = 3`. -/
theorem batch_counters_invariant_witness :
    demoOutcomes.length = 3 ∧
    ((run_threaded_submissions 3 demoOutcomes).succeeded +
        (run_threaded_submissions 3 demoOutcomes).failed =
      (run_threaded_submissions 3 demoOutcomes).attempted ∧
    (run_threaded_submissions 3 demoOutcomes).attempted = 3 ∧
    (run_threaded_submissions 3 demoOutcomes).succeeded =
      demoOutcomes.countP (fun o => isSuccess o) ∧
    (run_threaded_submissions 3 demoOutcomes).failed =
      demoOutcomes.countP (fun o => !isSuccess o)) :=
  ⟨by decide, batch_counters_invariant 3 demoOutcomes (by decide)⟩

/-- C2 (amended): for every MultiChoice container whose heading parses as
`"select top <integer>"` with parsed count `t ≥ 1` and whose eligible pool
is nonempty, the fill selects exactly `min(t, e)` distinct options from the
eligible pool, sampled without replacement.  (The original claim, stated
for every parsed `t`, fails at `t = 0`: Python's `if selection_limit:`
treats 0 as falsy, see the counterexample.) -/
theorem select_top_positive_clamps (c : Container) (rng : Rng) (t : Int)
    (hp : (parseLimit (questionText c)).1 = some t) (ht : 1 ≤ t)
    (hne : c.checkboxes ≠ []) (hnd : c.checkboxes.Nodup)
    (hact : c.actionOutcome = .ok ()) :
    ∃ sel : List Elem,
      fill_checkbox_group c rng = .ok (sel, (parseLimit (questionText c)).2) ∧
      sel.length = min t.toNat (nonSentinelOr c.checkboxes).length ∧
      sel.Nodup ∧ ∀ x ∈ sel, x ∈ nonSentinelOr c.checkboxes := by
  have hlen : 0 < (nonSentinelOr c.checkboxes).length :=
    List.length_pos.mpr (nonSentinelOr_ne_nil _ hne)
  have hnum : numToSelect (parseLimit (questionText c)).1 rng
      (nonSentinelOr c.checkboxes).length =
      min t ((nonSentinelOr c.checkboxes).length : Int) := by
    rw [hp]; exact numToSelect_some_pos _ _ _ (by omega)
  refine ⟨_, fill_checkbox_group_eq c rng hne hact (by omega) (by omega),
    ?_, draw_nodup _ _ _ (nonSentinelOr_nodup _ hnd),
    fun x hx => draw_mem _ _ _ _ hx⟩
  rw [draw_length, hnum]
  omega

/-- C2 counterexample: heading `"select top 0"` parses to `t = 0` with an
eligible pool of size `e = 1`, yet one option is selected, not
`min(0, 1) = 0`. -/
theorem select_top_zero_not_min :
    (parseLimit (questionText (checkboxContainer "select top 0" [plainBox 1]))).1 =
      some 0 ∧
    fill_checkbox_group (checkboxContainer "select top 0" [plainBox 1]) rngZero =
      .ok ([plainBox 1], false) ∧
    ¬(([plainBox 1] : List Elem).length = (min (0 : Int) 1).toNat) := by decide

/-- Witness for C2: heading `"select top 3"` with 2 eligible options selects
exactly `min(3, 2) = 2` distinct options. -/
theorem select_top_positive_clamps_witness :
    (parseLimit (questionText
        (checkboxContainer "select top 3" [plainBox 1, plainBox 2]))).1 =
      some 3 ∧
    (∃ sel : List Elem,
      fill_checkbox_group (checkboxContainer "select top 3"
          [plainBox 1, plainBox 2]) rngZero =
        .ok (sel, (parseLimit (questionText (checkboxContainer "select top 3"
          [plainBox 1, plainBox 2]))).2) ∧
      sel.length = min (3 : Int).toNat
        (nonSentinelOr (checkboxContainer "select top 3"
          [plainBox 1, plainBox 2]).checkboxes).length ∧
      sel.Nodup ∧
      ∀ x ∈ sel, x ∈ nonSentinelOr (checkboxContainer "select top 3"
        [plainBox 1, plainBox 2]).checkboxes) :=
  ⟨by decide, select_top_positive_clamps _ rngZero 3 (by decide) (by decide)
    (by decide) (by decide) (by decide)⟩

/-- C3: for every SingleChoice container with a nonempty option list,
exactly one option is clicked; it is never the sentinel when a non-sentinel
option exists, and it is the sentinel when every option is the sentinel. -/
theorem radio_selects_one_non_sentinel (c : Container) (rng : Rng)
    (hne : c.radioOptions ≠ []) (hact : c.actionOutcome = .ok ()) :
    ∃ x, fill_radio_group c rng = .ok (some x) ∧ x ∈ c.radioOptions ∧
      ((∃ e ∈ c.radioOptions, isSentinel e = false) → isSentinel x = false) ∧
      ((∀ e ∈ c.radioOptions, isSentinel e = true) → isSentinel x = true) := by
  have hpool := pyChoice_mem (nonSentinelOr c.radioOptions) rng.radioPick
    (nonSentinelOr_ne_nil _ hne)
  refine ⟨pyChoice (nonSentinelOr c.radioOptions) rng.radioPick, ?_, ?_, ?_, ?_⟩
  · rw [fill_radio_group, if_neg (by simpa using hne), hact]
  · exact nonSentinelOr_subset _ _ hpool
  · intro hex
    exact nonSentinelOr_not_sentinel _ hex _ hpool
  · intro hall
    rw [nonSentinelOr_all_sentinel _ hall] at hpool ⊢
    exact hall _ hpool

/-- Witness for C3: from a sentinel and a plain option, the plain one is
clicked. -/
theorem radio_selects_one_non_sentinel_witness :
    (radioContainer [sentinelBox 1, plainBox 2]).radioOptions ≠ [] ∧
    (∃ x, fill_radio_group (radioContainer [sentinelBox 1, plainBox 2])
        rngZero = .ok (some x) ∧
      x ∈ (radioContainer [sentinelBox 1, plainBox 2]).radioOptions ∧
      ((∃ e ∈ (radioContainer [sentinelBox 1, plainBox 2]).radioOptions,
          isSentinel e = false) → isSentinel x = false) ∧
      ((∀ e ∈ (radioContainer [sentinelBox 1, plainBox 2]).radioOptions,
          isSentinel e = true) → isSentinel x = true)) :=
  ⟨by decide, radio_selects_one_non_sentinel _ rngZero (by decide) (by decide)⟩

/-- C4 (amended): for every MultiChoice container whose heading fails to
parse, the number of options selected lies in `[1, min(3, e)]`; the warning,
however, is logged exactly when the `"select top"` pattern is present (and
its token missing or non-integer) — when the pattern is absent no warning
is logged.  (The original claim's "a warning is logged" fails for a heading
without the pattern, see the counterexample.) -/
theorem default_fallback_on_parse_failure (c : Container) (rng : Rng)
    (hp : (parseLimit (questionText c)).1 = none)
    (hne : c.checkboxes ≠ []) (hact : c.actionOutcome = .ok ()) :
    ∃ sel : List Elem,
      fill_checkbox_group c rng = .ok (sel, (parseLimit (questionText c)).2) ∧
      1 ≤ sel.length ∧
      sel.length ≤ min 3 (nonSentinelOr c.checkboxes).length ∧
      (parseLimit (questionText c)).2 =
        pyContains selectTopPattern (questionText c) := by
  have hlen : 0 < (nonSentinelOr c.checkboxes).length :=
    List.length_pos.mpr (nonSentinelOr_ne_nil _ hne)
  have hb := defaultSelectCount_bounds rng _ hlen
  obtain ⟨sel, hsel, hl⟩ := fill_checkbox_group_default c rng
    (by rw [hp]; exact numToSelect_default _ _ _ (Or.inl rfl)) hne hact
  exact ⟨sel, hsel, by omega, by omega, parseLimit_warned _ hp⟩

/-- C4 counterexample: the heading `"pick any"` has no `"select top"`
pattern, so the parse fails, but no warning is logged (the warning flag is
`false`); the fallback count is still used. -/
theorem missing_pattern_no_warning :
    pyContains selectTopPattern
      (questionText (checkboxContainer "pick any" [plainBox 1])) = false ∧
    (parseLimit (questionText (checkboxContainer "pick any" [plainBox 1]))).1 =
      none ∧
    fill_checkbox_group (checkboxContainer "pick any" [plainBox 1]) rngZero =
      .ok ([plainBox 1], false) := by decide

/-- Witness for C4: heading `"select top x"` (non-integer token) with 2
eligible options: the parse fails, the warning is logged, and the selected
count is in `[1, min(3, 2)]`. -/
theorem default_fallback_on_parse_failure_witness :
    (parseLimit (questionText
        (checkboxContainer "select top x" [plainBox 1, plainBox 2]))).1 = none ∧
    (∃ sel : List Elem,
      fill_checkbox_group (checkboxContainer "select top x"
          [plainBox 1, plainBox 2]) rngZero =
        .ok (sel, (parseLimit (questionText (checkboxContainer "select top x"
          [plainBox 1, plainBox 2]))).2) ∧
      1 ≤ sel.length ∧
      sel.length ≤ min 3 (nonSentinelOr (checkboxContainer "select top x"
        [plainBox 1, plainBox 2]).checkboxes).length ∧
      (parseLimit (questionText (checkboxContainer "select top x"
          [plainBox 1, plainBox 2]))).2 =
        pyContains selectTopPattern (questionText (checkboxContainer
          "select top x" [plainBox 1, plainBox 2]))) :=
  ⟨by decide, default_fallback_on_parse_failure _ rngZero (by decide)
    (by decide) (by decide)⟩

/-- C9: a heading parsing to `"select top 0"` does not select zero options:
`selection_limit = 0` is falsy in Python, so the default branch applies and
the selected count lies in `[1, min(3, e)]`. -/
theorem zero_limit_uses_default (c : Container) (rng : Rng)
    (hp : (parseLimit (questionText c)).1 = some 0)
    (hne : c.checkboxes ≠ []) (hact : c.actionOutcome = .ok ()) :
    ∃ sel : List Elem,
      fill_checkbox_group c rng = .ok (sel, (parseLimit (questionText c)).2) ∧
      sel.length = defaultSelectCount rng (nonSentinelOr c.checkboxes).length ∧
      1 ≤ sel.length ∧
      sel.length ≤ min 3 (nonSentinelOr c.checkboxes).length := by
  have hlen : 0 < (nonSentinelOr c.checkboxes).length :=
    List.length_pos.mpr (nonSentinelOr_ne_nil _ hne)
  have hb := defaultSelectCount_bounds rng _ hlen
  obtain ⟨sel, hsel, hl⟩ := fill_checkbox_group_default c rng
    (by rw [hp]; exact numToSelect_default _ _ _ (Or.inr rfl)) hne hact
  exact ⟨sel, hsel, hl, by omega, by omega⟩

/-- Witness for C9: `"select top 0"` over 2 options selects a nonzero
number of options (here 1). -/
theorem zero_limit_uses_default_witness :
    (parseLimit (questionText
        (checkboxContainer "select top 0" [plainBox 1, plainBox 2]))).1 =
      some 0 ∧
    (∃ sel : List Elem,
      fill_checkbox_group (checkboxContainer "select top 0"
          [plainBox 1, plainBox 2]) rngZero =
        .ok (sel, (parseLimit (questionText (checkboxContainer "select top 0"
          [plainBox 1, plainBox 2]))).2) ∧
      sel.length = defaultSelectCount rngZero
        (nonSentinelOr (checkboxContainer "select top 0"
          [plainBox 1, plainBox 2]).checkboxes).length ∧
      1 ≤ sel.length ∧
      sel.length ≤ min 3 (nonSentinelOr (checkboxContainer "select top 0"
        [plainBox 1, plainBox 2]).checkboxes).length) :=
  ⟨by decide, zero_limit_uses_default _ rngZero (by decide) (by decide)
    (by decide)⟩

/-- C5: for every worker environment — whatever errors the navigation,
question-filling, submit or confirmation-wait steps raise — the worker
returns a boolean (`.ok b`): no exception ever escapes a session into the
orchestrator, and an error at any step yields `False`. -/
theorem session_never_raises (w : WorkerEnv) :
    ∃ b, (submission_worker w).1 = .ok b ∧
      ((isErr w.ctorResult || isErr (fill_form_body w.env)) = true →
        b = false) := by
  rcases hw : w.ctorResult with e | u
  · exact ⟨false, by simp [submission_worker, hw], fun _ => rfl⟩
  · refine ⟨fill_form w.env,
      by simp [submission_worker, hw, run_submission], ?_⟩
    intro h
    simp only [isErr, hw, Bool.false_or] at h
    rcases hb : fill_form_body w.env with e | b
    · simp [fill_form, hb]
    · rw [hb] at h
      simp [isErr] at h

/-- Witness for C5: a session whose confirmation wait times out returns
`.ok false` from the worker. -/
theorem session_never_raises_witness :
    ∃ b, (submission_worker { demoWorker with
        env := { demoEnv with waitResult := .error (.exn 7) } }).1 = .ok b ∧
      ((isErr ({ demoWorker with
          env := { demoEnv with waitResult := .error (.exn 7) } } :
            WorkerEnv).ctorResult ||
        isErr (fill_form_body { demoEnv with waitResult := .error (.exn 7) })) =
          true → b = false) :=
  session_never_raises { demoWorker with
    env := { demoEnv with waitResult := .error (.exn 7) } }

/-- C6 (amended): whenever `FormFiller` construction succeeds, the cleanup
body (close context, close browser, stop driver) is executed exactly twice
— once by `run_submission` and once more by the worker's `finally` block —
and zero times when construction fails; a failure inside either cleanup
execution never changes the worker's boolean result.  (The original
"released exactly once" fails on every successful construction, see the
counterexample.) -/
theorem cleanup_release_count (w : WorkerEnv) :
    ((submission_worker w).2.length = if isErr w.ctorResult then 0 else 2) ∧
    (∀ x y : Except PyErr Unit,
      (submission_worker { w with cleanup1 := x, cleanup2 := y }).1 =
        (submission_worker w).1) := by
  rcases hw : w.ctorResult with e | u <;>
    simp [submission_worker, run_submission, cleanup_release, isErr, hw]

/-- C6 counterexample: on a fully successful attempt the cleanup body is
executed twice, not exactly once. -/
theorem double_release_on_success :
    (submission_worker demoWorker).1 = .ok true ∧
    (submission_worker demoWorker).2.length = 2 ∧ ¬(2 = 1) := by decide

/-- C7: classification returns exactly one variant by first-match priority
(radio group, else checkbox, else text input, else Unknown), and an
`Unknown` container is processed without error: the unknown-type warning is
logged and nothing is filled, so the session is not failed. -/
theorem classification_first_match (c : Container) (rng : Rng) :
    (0 < c.radioGroupCount → classify c = .SingleChoice) ∧
    (c.radioGroupCount = 0 → 0 < c.checkboxes.length →
      classify c = .MultiChoice) ∧
    (c.radioGroupCount = 0 → c.checkboxes.length = 0 → 0 < c.inputCount →
      classify c = .FreeText) ∧
    (c.radioGroupCount = 0 → c.checkboxes.length = 0 → c.inputCount = 0 →
      classify c = .Unknown ∧
      process_question_container c rng = .ok (.Unknown, true)) := by
  refine ⟨fun h1 => by simp [classify, h1],
    fun h1 h2 => by simp [classify, h1, h2],
    fun h1 h2 h3 => by simp [classify, h1, h2, h3],
    fun h1 h2 h3 => ?_⟩
  have hcl : classify c = .Unknown := by simp [classify, h1, h2, h3]
  exact ⟨hcl, by rw [process_question_container, hcl]⟩

/-- Witness for C7: a container with no radio group, no checkbox and no
input classifies as `Unknown` and is skipped without failing. -/
theorem classification_first_match_witness :
    emptyContainer.radioGroupCount = 0 ∧ emptyContainer.checkboxes.length = 0 ∧
    emptyContainer.inputCount = 0 ∧ classify emptyContainer = .Unknown ∧
    process_question_container emptyContainer rngZero = .ok (.Unknown, true) :=
  ⟨rfl, rfl, rfl,
    ((classification_first_match emptyContainer rngZero).2.2.2 rfl rfl rfl).1,
    ((classification_first_match emptyContainer rngZero).2.2.2 rfl rfl rfl).2⟩

/-- C8: the FreeText fill value is chosen by heading-substring priority:
`"email"` gives `<8 lowercase letters>@<domain from the fixed list>`;
else `"name"` gives `<first> <last>` from the fixed name lists; otherwise
3–6 distinct words from the fixed vocabulary joined by spaces. -/
theorem text_fill_priority (c : Container) (rng : Rng)
    (hin : 0 < c.inputCount) (hact : c.actionOutcome = .ok ()) :
    (pyContains emailKey (questionText c) = true →
      fill_text_input c rng = .ok (some (generate_email rng)) ∧
      ∃ u d, generate_email rng = u ++ '@' :: d ∧ u.length = 8 ∧
        (∀ ch ∈ u, ch ∈ asciiLowercase) ∧ d ∈ emailDomains) ∧
    (pyContains emailKey (questionText c) = false →
      pyContains nameKey (questionText c) = true →
      fill_text_input c rng = .ok (some (generate_name rng)) ∧
      ∃ f l, generate_name rng = f ++ ' ' :: l ∧
        f ∈ firstNames ∧ l ∈ lastNames) ∧
    (pyContains emailKey (questionText c) = false →
      pyContains nameKey (questionText c) = false →
      fill_text_input c rng = .ok (some (generate_text rng)) ∧
      ∃ ws : List (List Char), generate_text rng = pyJoin [' '] ws ∧
        3 ≤ ws.length ∧ ws.length ≤ 6 ∧ ws.Nodup ∧
        ∀ w ∈ ws, w ∈ reviewWords) := by
  have hin' : ¬(c.inputCount = 0) := by omega
  refine ⟨fun he => ⟨by simp [fill_text_input, hin', hact, he], ?_⟩,
    fun he hn => ⟨by simp [fill_text_input, hin', hact, he, hn], ?_⟩,
    fun he hn => ⟨by simp [fill_text_input, hin', hact, he, hn], ?_⟩⟩
  · refine ⟨_, _, rfl, by simp, ?_, ?_⟩
    · intro ch hch
      simp only [List.mem_map, List.mem_range] at hch
      obtain ⟨i, hi, hch⟩ := hch
      have hlt : rng.emailLetter i % asciiLowercase.length <
          asciiLowercase.length := Nat.mod_lt _ (by decide)
      rw [← hch, List.getD_eq_getElem _ _ hlt]
      exact List.getElem_mem hlt
    · have hlt : rng.domainPick % emailDomains.length < emailDomains.length :=
        Nat.mod_lt _ (by decide)
      rw [List.getD_eq_getElem _ _ hlt]
      exact List.getElem_mem hlt
  · refine ⟨_, _, rfl, ?_, ?_⟩
    · have hlt : rng.firstPick % firstNames.length < firstNames.length :=
        Nat.mod_lt _ (by decide)
      rw [List.getD_eq_getElem _ _ hlt]
      exact List.getElem_mem hlt
    · have hlt : rng.lastPick % lastNames.length < lastNames.length :=
        Nat.mod_lt _ (by decide)
      rw [List.getD_eq_getElem _ _ hlt]
      exact List.getElem_mem hlt
  · refine ⟨_, rfl, ?_, ?_, draw_nodup _ _ _ (by decide),
      fun w hw => draw_mem _ _ _ _ hw⟩ <;>
    · rw [draw_length]
      have h4 : rng.wordCount % 4 < 4 := Nat.mod_lt _ (by decide)
      have hrw : reviewWords.length = 10 := by decide
      omega

/-- Witness for C8: a heading containing `"email"` produces
`aaaaaaaa@example.com` under the all-zeros oracle — 8 lowercase letters,
`@`, a listed domain. -/
theorem text_fill_priority_witness :
    pyContains emailKey (questionText (textContainer "Your Email")) = true ∧
    fill_text_input (textContainer "Your Email") rngZero =
      .ok (some (generate_email rngZero)) ∧
    generate_email rngZero = "aaaaaaaa@example.com".toList :=
  ⟨by decide,
    ((text_fill_priority (textContainer "Your Email") rngZero (by decide)
      (by decide)).1 (by decide)).1,
    by decide⟩

/-- C10: a MultiChoice container whose heading parses to a negative count
(`"select top -1"`) with a nonempty eligible pool makes `random.sample`
raise `ValueError`; the session boundary catches it and the whole attempt
returns `False` (the submit/confirmation steps of the environment would
otherwise succeed). -/
theorem negative_limit_fails_session :
    fill_checkbox_group negLimitContainer rngZero = .error .valueError ∧
    fill_form_body negLimitEnv = .error .valueError ∧
    fill_form negLimitEnv = false ∧
    negLimitEnv.submitCount = 1 ∧ negLimitEnv.clickResult = .ok () ∧
    negLimitEnv.waitResult = .ok () := by decide

end FormsFiller
